import Mathlib

namespace DSDE

/-- Arithmetic mean, modelling `numpy.mean` (and `sum(l)/len(l)`). -/
def mean (l : List ℚ) : ℚ := l.sum / l.length

/-- Population variance, modelling `numpy.var`. -/
def npVar (l : List ℚ) : ℚ := (l.map (fun x => (x - mean l) ^ 2)).sum / l.length

/-- Python's built-in `round`: round half to even (banker's rounding). -/
def pyRound (q : ℚ) : ℤ :=
  if q - ⌊q⌋ < 1/2 then ⌊q⌋
  else if 1/2 < q - ⌊q⌋ then ⌊q⌋ + 1
  else if ⌊q⌋ % 2 = 0 then ⌊q⌋ else ⌊q⌋ + 1

/-- Python's `int()` applied to a float: truncation toward zero. -/
def pyInt (q : ℚ) : ℤ := if 0 ≤ q then ⌊q⌋ else -⌊-q⌋

/-- Python's list slice `l[-k:]`: the last `k` elements for `k > 0`, and the
whole list for `k = 0` (since `l[-0:] = l[0:]`). -/
def pySliceLast (k : ℕ) (l : List ℚ) : List ℚ :=
  if k = 0 then l else l.drop (l.length - k)

/-- Append to a `collections.deque(maxlen := cap)`: keeps the last `cap`
elements, evicting the oldest when full. -/
def boundedPush {α : Type} (cap : ℕ) (l : List α) (x : α) : List α :=
  (l ++ [x]).drop ((l.length + 1) - cap)

/-- The proposition `Real.sqrt v > c`, for `v ≥ 0`, stated square-free over
`ℚ` (models a float comparison `numpy.std(xs) > c` where `v` is the
variance). -/
def gtSqrt (v c : ℚ) : Prop := c < 0 ∨ c ^ 2 < v

/-- The proposition `|x| > t * Real.sqrt v`, for `v ≥ 0`, stated square-free
over `ℚ` (models the float comparison `abs(sl - mean) > tol * numpy.std(xs)`
where `v` is the variance). -/
def absGtSqrt (x t v : ℚ) : Prop := (t < 0 ∧ (0 < v ∨ x ≠ 0)) ∨ t ^ 2 * v < x ^ 2

instance (v c : ℚ) : Decidable (gtSqrt v c) := by unfold gtSqrt; infer_instance

instance (x t v : ℚ) : Decidable (absGtSqrt x t v) := by unfold absGtSqrt; infer_instance

/-! ### Signal processing (`signals.py`) -/

/-- Configuration for DSDE signals (`SignalConfig`). -/
structure SignalConfig where
  short_window_size : ℕ := 4
  long_window_size : ℕ := 12
  min_history_length : ℕ := 2
  kld_threshold : ℚ := 1/10
  variance_threshold : ℚ := 1/20
  entropy_weight : ℚ := 3/10
  kld_weight : ℚ := 7/10

/-- The default `SignalConfig()`. -/
def defaultSignalConfig : SignalConfig := {}

/-- Per-sequence histories of `KLDVarianceSignal` / `EntropySignal`
(`sequence_histories` and `entropy_history` dicts). -/
structure SignalState where
  kldHists : String → Option (List ℚ)
  entHists : String → Option (List ℚ)

/-- The state of freshly constructed signal components (empty dicts). -/
def initSignalState : SignalState := ⟨fun _ => none, fun _ => none⟩

/-- Embeds `KLDVarianceSignal.update_history`: create the sequence's deque if absent,
then append each KLD value in order (deque capacity `long_window_size`). -/
def updateKldHistory (cfg : SignalConfig) (hists : String → Option (List ℚ))
    (sid : String) (kldValues : List ℚ) : String → Option (List ℚ) :=
  fun s =>
    if s = sid then
      some (kldValues.foldl (boundedPush cfg.long_window_size) ((hists sid).getD []))
    else hists s

/-- Embeds `EntropySignal.update_history`: deque capacity 10. -/
def updateEntropyHistory (hists : String → Option (List ℚ))
    (sid : String) (entropy : ℚ) : String → Option (List ℚ) :=
  fun s =>
    if s = sid then some (boundedPush 10 ((hists sid).getD []) entropy)
    else hists s

/-- Embeds `KLDVarianceSignal.get_regional_stability`. -/
def getRegionalStability (cfg : SignalConfig) (hists : String → Option (List ℚ))
    (sid : String) : ℚ :=
  match hists sid with
  | none => 1/2
  | some history =>
    if history.length < cfg.min_history_length then 1/2
    else
      let recentKlds := pySliceLast cfg.short_window_size history
      if recentKlds.length < 2 then 1/2
      else min 1 (max 0 (1 / (1 + npVar recentKlds)))

/-- The short window of `WVIRCalculator.calculate_wvir`
(`kld_history[-short_window_size:]`). -/
def wvirShortWindow (cfg : SignalConfig) (h : List ℚ) : List ℚ :=
  pySliceLast cfg.short_window_size h

/-- The long window of `WVIRCalculator.calculate_wvir`
(`kld_history[-long_window_size:]` when long enough, else the whole history). -/
def wvirLongWindow (cfg : SignalConfig) (h : List ℚ) : List ℚ :=
  if cfg.long_window_size ≤ h.length then pySliceLast cfg.long_window_size h else h

/-- Embeds `short_var` in `calculate_wvir` (0 when the window has at most one sample). -/
def wvirShortVar (cfg : SignalConfig) (h : List ℚ) : ℚ :=
  if 1 < (wvirShortWindow cfg h).length then npVar (wvirShortWindow cfg h) else 0

/-- Embeds `long_var` in `calculate_wvir` (0 when the window has at most one sample). -/
def wvirLongVar (cfg : SignalConfig) (h : List ℚ) : ℚ :=
  if 1 < (wvirLongWindow cfg h).length then npVar (wvirLongWindow cfg h) else 0

/-- Embeds `WVIRCalculator.calculate_wvir`. -/
def calculateWvir (cfg : SignalConfig) (h : List ℚ) : ℚ :=
  if h.length < cfg.short_window_size then 0
  else if wvirLongVar cfg h = 0 then (if 0 < wvirShortVar cfg h then 1 else 0)
  else min 10 (max 0 (wvirShortVar cfg h / wvirLongVar cfg h))

/-- Embeds `WVIRCalculator.get_stability_classification`. -/
def getStabilityClassification (wvir : ℚ) : String :=
  if wvir < 1/2 then "highly_stable"
  else if wvir < 1 then "stable"
  else if wvir < 2 then "moderate"
  else if wvir < 4 then "unstable"
  else "highly_unstable"

/-- Embeds `EntropySignal.get_trend`. -/
def getEntropyTrend (hists : String → Option (List ℚ)) (sid : String) : String :=
  match hists sid with
  | none => "stable"
  | some h =>
    if h.length < 3 then "stable"
    else
      let recent := pySliceLast 3 h
      match recent.head?, recent.getLast? with
      | some first, some last =>
        if first * (11/10) < last then "increasing"
        else if last < first * (9/10) then "decreasing"
        else "stable"
      | _, _ => "stable"

/-- Embeds `KLDVarianceSignal.predict_acceptance_likelihood`. -/
def predictAcceptanceLikelihood (cfg : SignalConfig)
    (hists : String → Option (List ℚ)) (sid : String)
    (draftEntropy : Option ℚ) : ℚ :=
  min 1 (max 0
    (match draftEntropy with
     | some e => cfg.kld_weight * getRegionalStability cfg hists sid +
         cfg.entropy_weight * (1 / (1 + e))
     | none => getRegionalStability cfg hists sid))

/-! ### Speculation length adapter (`adapter.py`) -/

/-- The metrics dictionary returned by
`CombinedSignalProcessor.get_sequence_metrics` (`Option` fields model keys
that may be absent). -/
structure SequenceMetrics where
  stability : ℚ
  wvir : Option ℚ
  mean_kld : Option ℚ
  current_entropy : Option ℚ
  entropy_trend : Option String

/-- Embeds `CombinedSignalProcessor.get_sequence_metrics`. -/
def getSequenceMetrics (cfg : SignalConfig) (st : SignalState) (sid : String) :
    SequenceMetrics :=
  { stability := getRegionalStability cfg st.kldHists sid
    wvir :=
      match st.kldHists sid with
      | some h => if h.length ≠ 0 then some (calculateWvir cfg h) else none
      | none => none
    mean_kld :=
      match st.kldHists sid with
      | some h =>
        if h.length ≠ 0 then
          some (if 5 ≤ h.length then mean (pySliceLast 5 h) else mean h)
        else none
      | none => none
    current_entropy :=
      match st.entHists sid with
      | some h => h.getLast?
      | none => none
    entropy_trend :=
      match st.entHists sid with
      | some h => if h.length ≠ 0 then some (getEntropyTrend st.entHists sid) else none
      | none => none }

/-- Configuration for the speculation length adapter (`AdapterConfig`). -/
structure AdapterConfig where
  min_speculation_length : ℤ := 1
  max_speculation_length : ℤ := 8
  default_speculation_length : ℤ := 4
  stability_threshold_high : ℚ := 7/10
  stability_threshold_low : ℚ := 3/10
  wvir_threshold_stable : ℚ := 1
  wvir_threshold_unstable : ℚ := 3
  adaptation_rate : ℚ := 1/5
  history_weight : ℚ := 4/5
  min_acceptance_rate : ℚ := 3/10
  target_acceptance_rate : ℚ := 7/10
  enable_batch_capping : Bool := true
  straggler_tolerance : ℚ := 2

/-- The default `AdapterConfig()`. -/
def defaultAdapterConfig : AdapterConfig := {}

/-- Embeds `SpeculationLengthAdapter._predict_from_stability` (including its entropy
adjustment step). The `.getD` defaults model `metrics.get('wvir', 1.0)` and
`metrics.get('current_entropy', 2.0)`; `stability` is always present. -/
def predictFromStability (cfg : AdapterConfig) (m : SequenceMetrics) : ℚ :=
  let stability := m.stability
  let wvir := m.wvir.getD 1
  let entropy := m.current_entropy.getD 2
  let baseSl :=
    if cfg.stability_threshold_high < stability ∧ wvir < cfg.wvir_threshold_stable then
      (cfg.max_speculation_length : ℚ) * (4/5)
    else if stability < cfg.stability_threshold_low ∨ cfg.wvir_threshold_unstable < wvir then
      (cfg.min_speculation_length : ℚ) * (3/2)
    else
      let stabilityFactor := (stability - cfg.stability_threshold_low) /
        (cfg.stability_threshold_high - cfg.stability_threshold_low)
      let clampedFactor := max 0 (min 1 stabilityFactor)
      (cfg.min_speculation_length : ℚ) +
        clampedFactor * ((cfg.max_speculation_length : ℚ) - (cfg.min_speculation_length : ℚ))
  if entropy < 1 then baseSl * (6/5)
  else if 4 < entropy then baseSl * (4/5)
  else baseSl

/-- Embeds `SpeculationLengthAdapter._adjust_for_history`, as a function of the
sequence's `recent_acceptance_rates` deque. -/
def adjustForHistory (cfg : AdapterConfig) (rates : List ℚ) (baseSl : ℚ) : ℚ :=
  if rates.isEmpty then baseSl
  else
    let recentAcceptance := mean rates
    let adjustment :=
      if cfg.target_acceptance_rate < recentAcceptance then
        1 + (recentAcceptance - cfg.target_acceptance_rate) * 2
      else if recentAcceptance < cfg.min_acceptance_rate then
        1/2 + (recentAcceptance / cfg.min_acceptance_rate) * (1/2)
      else
        1 + (recentAcceptance - cfg.target_acceptance_rate) * (1/2)
    baseSl * (cfg.history_weight * adjustment + (1 - cfg.history_weight) * 1)

/-- The optional `context_info` dict: recognized keys of
`SpeculationLengthAdapter._adjust_for_context`; an absent field models an
absent key (so e.g. `current_length` defaults to 0 via `.get`). A falsy
context (`None` or `{}`) is modelled as `none` at the use site. -/
structure ContextInfo where
  task_type : Option String := none
  current_length : Option ℤ := none
  temperature : Option ℚ := none

/-- Embeds `SpeculationLengthAdapter._adjust_for_context`. -/
def adjustForContext (baseSl : ℚ) (ctx : Option ContextInfo) : ℚ :=
  match ctx with
  | none => baseSl
  | some c =>
    let taskType := c.task_type.getD "general"
    let a1 :=
      if taskType = "code_generation" then baseSl * (11/10)
      else if taskType = "creative_writing" then baseSl * (9/10)
      else if taskType = "dialogue" then baseSl * (19/20)
      else baseSl
    let seqLen := c.current_length.getD 0
    let a2 :=
      if 1000 < seqLen then a1 * (21/20)
      else if seqLen < 50 then a1 * (19/20)
      else a1
    let temp := c.temperature.getD 1
    if temp < 3/10 then a2 * (11/10)
    else if 3/2 < temp then a2 * (9/10)
    else a2

/-- A `sequence_performance` entry of the adapter (deques have capacity 10). -/
structure PerfEntry where
  recent_acceptance_rates : List ℚ := []
  recent_speculation_lengths : List ℤ := []
  total_tokens_generated : ℤ := 0
  total_tokens_accepted : ℤ := 0

/-- The `defaultdict` default entry for `sequence_performance`. -/
def defaultPerfEntry : PerfEntry := {}

/-- A `sequence_states` entry of the adapter (the fields written by
`_update_sequence_state` that are also read back). -/
structure PredState where
  last_predicted_sl : ℤ
  prediction_count : ℕ

/-- The mutable state of a `SpeculationLengthAdapter`: its performance dict,
its sequence-state dict, and its own internal `CombinedSignalProcessor`. -/
structure AdapterState where
  perf : String → Option PerfEntry
  seqStates : String → Option PredState
  signal : SignalState

/-- A freshly constructed `SpeculationLengthAdapter` (all dicts empty). -/
def initAdapterState : AdapterState :=
  ⟨fun _ => none, fun _ => none, initSignalState⟩

/-- The context-adjusted speculation length computed inside
`SpeculationLengthAdapter.predict_optimal_sl` (steps 1-4 of the pipeline,
before clamping). -/
def contextAdjustedSl (acfg : AdapterConfig) (scfg : SignalConfig)
    (st : AdapterState) (sid : String) (ctx : Option ContextInfo) : ℚ :=
  adjustForContext
    (adjustForHistory acfg
      (((st.perf sid).getD defaultPerfEntry).recent_acceptance_rates)
      (predictFromStability acfg (getSequenceMetrics scfg st.signal sid)))
    ctx

/-- Embeds `final_sl` in `predict_optimal_sl`:
`max(min_speculation_length, min(max_speculation_length, context_adjusted_sl))`. -/
def clampedSl (acfg : AdapterConfig) (scfg : SignalConfig)
    (st : AdapterState) (sid : String) (ctx : Option ContextInfo) : ℚ :=
  max (acfg.min_speculation_length : ℚ)
    (min (acfg.max_speculation_length : ℚ) (contextAdjustedSl acfg scfg st sid ctx))

/-- The value returned by `SpeculationLengthAdapter.predict_optimal_sl`:
`int(final_sl)`. -/
def predictOptimalSl (acfg : AdapterConfig) (scfg : SignalConfig)
    (st : AdapterState) (sid : String) (ctx : Option ContextInfo) : ℤ :=
  pyInt (clampedSl acfg scfg st sid ctx)

/-- Embeds `SpeculationLengthAdapter._update_sequence_state` (the state write that
`predict_optimal_sl` performs before returning). -/
def updateSequenceState (st : AdapterState) (sid : String) (predictedSl : ℤ) :
    AdapterState :=
  { st with
    seqStates := fun s =>
      if s = sid then
        some ⟨predictedSl, ((st.seqStates sid).map PredState.prediction_count).getD 0 + 1⟩
      else st.seqStates s }

/-- Embeds `SpeculationLengthAdapter.update_performance` (acceptance rate uses
`accepted_tokens / max(1, total_tokens)`). -/
def updatePerformance (perf : String → Option PerfEntry) (sid : String)
    (speculationLength accepted total : ℤ) : String → Option PerfEntry :=
  fun s =>
    if s = sid then
      let e := (perf sid).getD defaultPerfEntry
      some { recent_acceptance_rates :=
               boundedPush 10 e.recent_acceptance_rates
                 ((accepted : ℚ) / ((max 1 total : ℤ) : ℚ))
             recent_speculation_lengths :=
               boundedPush 10 e.recent_speculation_lengths speculationLength
             total_tokens_generated := e.total_tokens_generated + total
             total_tokens_accepted := e.total_tokens_accepted + accepted }
    else perf s

/-- Rounding to the nearest integer as the specification words step 5 of the
prediction pipeline ("round to nearest integer", illustrated by a clamped
value of 4.6 yielding 5); written with the usual half-up convention. Used only
to compare the spec's claimed rounding against the implemented truncation. -/
def specRoundNearest (q : ℚ) : ℤ := ⌊q + 1/2⌋

/-- The context `{'task_type': 'code_generation'}`. -/
def ctxCodeGeneration : ContextInfo := { task_type := some "code_generation" }

/-! ### Batch optimizer (`BatchOptimizer` in `adapter.py`, and its sibling in
`utils.py`) -/

/-- Coercion of a list of Python ints to rationals (int-to-float promotion
in the Python arithmetic). -/
def castList (l : List ℤ) : List ℚ := l.map Int.cast

/-- Embeds `BatchOptimizer._calculate_adaptive_sl_cap` (adapter.py): mean (or
priority-weighted mean with weight floor 1e-8) of the predictions, rounded
with Python's `round` and clamped to the configured bounds. -/
def calculateAdaptiveSlCap (cfg : AdapterConfig) (predictedSls : List ℤ)
    (priorities : Option (List ℚ)) : ℤ :=
  if predictedSls.isEmpty then cfg.default_speculation_length
  else
    max cfg.min_speculation_length
      (min cfg.max_speculation_length
        (pyRound
          (match priorities with
           | none => mean (castList predictedSls)
           | some ps =>
             (List.zipWith (fun (sl : ℤ) (p : ℚ) => (sl : ℚ) * p) predictedSls ps).sum /
               max ps.sum (1/100000000))))

/-- The per-element smoothing of `BatchOptimizer._apply_batch_balancing`:
values deviating from the mean by more than `straggler_tolerance` standard
deviations are pulled 30% toward the mean, rounded and re-clamped to
`[1, max_speculation_length]` (`varSl` is the batch variance, i.e. the
squared standard deviation). -/
def balanceElement (cfg : AdapterConfig) (meanSl varSl : ℚ) (sl : ℤ) : ℤ :=
  if absGtSqrt ((sl : ℚ) - meanSl) cfg.straggler_tolerance varSl then
    max 1 (min cfg.max_speculation_length
      (pyRound ((sl : ℚ) + (3/10) * (meanSl - (sl : ℚ)))))
  else sl

/-- Embeds `BatchOptimizer._apply_batch_balancing` (adapter.py): smoothing applies
only when the standard deviation exceeds half the mean. -/
def applyBatchBalancing (cfg : AdapterConfig) (speculationLengths : List ℤ) :
    List ℤ :=
  if speculationLengths.isEmpty then speculationLengths
  else if gtSqrt (npVar (castList speculationLengths))
      (mean (castList speculationLengths) * (1/2)) then
    speculationLengths.map (balanceElement cfg
      (mean (castList speculationLengths)) (npVar (castList speculationLengths)))
  else speculationLengths

/-- Embeds `BatchOptimizer.optimize_batch_speculation_lengths` (adapter.py). -/
def optimizeBatchSpeculationLengths (cfg : AdapterConfig) (predictedSls : List ℤ)
    (priorities : Option (List ℚ)) : List ℤ × ℤ :=
  if predictedSls.isEmpty then ([], 0)
  else
    (applyBatchBalancing cfg
      (predictedSls.map (fun sl => min sl (calculateAdaptiveSlCap cfg predictedSls priorities))),
     calculateAdaptiveSlCap cfg predictedSls priorities)

/-- The speculation length cap of `utils.BatchOptimizer`: clamped to the
hardcoded range [1, 8], and `if priorities:` treats an empty priority list as
absent. -/
def utilsSlCap (predictedSls : List ℤ) (priorities : Option (List ℚ)) : ℤ :=
  max 1 (min 8
    (pyRound
      (match priorities with
       | some ps =>
         if ps.isEmpty then mean (castList predictedSls)
         else
           (List.zipWith (fun (sl : ℤ) (p : ℚ) => (sl : ℚ) * p) predictedSls ps).sum /
             max ps.sum (1/100000000)
       | none => mean (castList predictedSls))))

/-- Embeds `BatchOptimizer.optimize_batch_speculation_lengths` in `utils.py` (no
balancing pass). -/
def utilsOptimizeBatchSpeculationLengths (predictedSls : List ℤ)
    (priorities : Option (List ℚ)) : List ℤ × ℤ :=
  if predictedSls.isEmpty then ([], 0)
  else
    (predictedSls.map (fun sl => min sl (utilsSlCap predictedSls priorities)),
     utilsSlCap predictedSls priorities)

/-! ### Combined signal processor step (`signals.py`) and the decoding round
(`core.py`). Logits are abstract (`L`); the torch computations inside
`compute_kld` / `compute_entropy` are abstracted as raw functions returning
`none` on an internal exception, which the code maps to 0.0. -/

/-- Embeds `KLDVarianceSignal.compute_kld`: a successful raw result is clamped to be
nonnegative (`max(0.0, kld)`); an internal exception yields 0.0. -/
def computeKld {L : Type} (rawKld : L → L → Option ℚ) (draft target : L) : ℚ :=
  match rawKld draft target with
  | some kld => max 0 kld
  | none => 0

/-- Embeds `EntropySignal.compute_entropy`, with the same failure convention. -/
def computeEntropy {L : Type} (rawEntropy : L → Option ℚ) (logits : L) : ℚ :=
  match rawEntropy logits with
  | some e => max 0 e
  | none => 0

/-- The updated KLD histories of
`CombinedSignalProcessor.process_verification_step`: per-position KL values
(positions truncated to the shorter of the two logit lists) appended to the
sequence's history. -/
def stepKldHists {L : Type} (cfg : SignalConfig) (rawKld : L → L → Option ℚ)
    (st : SignalState) (sid : String) (draftLogits targetLogits : List L) :
    String → Option (List ℚ) :=
  updateKldHistory cfg st.kldHists sid
    ((draftLogits.zip targetLogits).map (fun p => computeKld rawKld p.1 p.2))

/-- The updated entropy histories of `process_verification_step`: the entropy
of the first draft distribution is recorded when the draft list is nonempty. -/
def stepEntHists {L : Type} (rawEntropy : L → Option ℚ) (st : SignalState)
    (sid : String) (draftLogits : List L) : String → Option (List ℚ) :=
  match draftLogits.head? with
  | some l0 => updateEntropyHistory st.entHists sid (computeEntropy rawEntropy l0)
  | none => st.entHists

/-- The results dictionary produced by `process_verification_step` (`Option`
fields model keys that are set conditionally). -/
structure SignalStepResults where
  stability : ℚ
  wvir : Option ℚ
  stability_class : Option String
  entropy : Option ℚ
  entropy_trend : Option String
  acceptance_rate : Option ℚ
  next_acceptance_likelihood : ℚ

/-- Embeds `CombinedSignalProcessor.process_verification_step`: updates the KLD and
entropy histories and assembles the signal metrics (all reads happen after the
updates, exactly as in the source; the `wvir` key is set whenever the
sequence's history exists after the update, which is always). -/
def processVerificationStep {L : Type} (cfg : SignalConfig)
    (rawKld : L → L → Option ℚ) (rawEntropy : L → Option ℚ)
    (st : SignalState) (sid : String) (draftLogits targetLogits : List L)
    (acceptedTokens : ℤ) : SignalState × SignalStepResults :=
  (⟨stepKldHists cfg rawKld st sid draftLogits targetLogits,
    stepEntHists rawEntropy st sid draftLogits⟩,
   { stability :=
       getRegionalStability cfg (stepKldHists cfg rawKld st sid draftLogits targetLogits) sid
     wvir :=
       (stepKldHists cfg rawKld st sid draftLogits targetLogits sid).map (calculateWvir cfg)
     stability_class :=
       ((stepKldHists cfg rawKld st sid draftLogits targetLogits sid).map
         (calculateWvir cfg)).map getStabilityClassification
     entropy := draftLogits.head?.map (computeEntropy rawEntropy)
     entropy_trend :=
       draftLogits.head?.map
         (fun _ => getEntropyTrend (stepEntHists rawEntropy st sid draftLogits) sid)
     acceptance_rate :=
       if draftLogits.length ≠ 0 then
         some ((acceptedTokens : ℚ) / (draftLogits.length : ℚ))
       else none
     next_acceptance_likelihood :=
       predictAcceptanceLikelihood cfg
         (stepKldHists cfg rawKld st sid draftLogits targetLogits) sid
         (draftLogits.head?.map (computeEntropy rawEntropy)) })

/-- The invariant of C9: no per-sequence KLD history ever exceeds
`long_window_size` samples and no entropy history ever exceeds 10. -/
def SignalState.Invariant (cfg : SignalConfig) (st : SignalState) : Prop :=
  ∀ s, ((st.kldHists s).getD []).length ≤ cfg.long_window_size ∧
    ((st.entHists s).getD []).length ≤ 10

/-! ### Decoder state and reset (`core.py`, `utils.py`) -/

/-- Global counters of a `DSDecoder` (`global_stats`; the wall-clock
`start_time` is omitted from the model). -/
structure GlobalStats where
  total_sequences_processed : ℕ
  total_tokens_generated : ℤ
  total_tokens_accepted : ℤ
  total_speculation_rounds : ℕ
  average_speedup : ℚ

/-- Embeds `global_stats` as (re)initialized in `__init__` and `reset_stats`. -/
def initGlobalStats : GlobalStats := ⟨0, 0, 0, 0, 0⟩

/-- A `sequence_metrics` entry of `PerformanceMetrics` (time fields carried as
rationals supplied by the caller; `start_time`/`end_time` omitted). -/
structure SeqMetricsEntry where
  total_tokens_generated : ℤ
  total_tokens_accepted : ℤ
  total_processing_time : ℚ

/-- A `round_metrics` entry of `PerformanceMetrics`. -/
structure RoundMetricsEntry where
  round_id : ℕ
  sequence_count : ℕ
  processing_time : ℚ

/-- The mutable state of `PerformanceMetrics`. -/
structure MetricsState where
  round_metrics : List RoundMetricsEntry
  round_counter : ℕ
  sequence_metrics : String → Option SeqMetricsEntry
  recent_throughput : List ℚ
  recent_acceptance_rates : List ℚ
  recent_speculation_lengths : List ℤ
  system_total_rounds : ℕ
  system_total_sequences : ℕ
  system_total_tokens_generated : ℤ
  system_total_tokens_accepted : ℤ
  system_total_processing_time : ℚ

/-- A freshly constructed `PerformanceMetrics`. -/
def initMetricsState : MetricsState :=
  ⟨[], 0, fun _ => none, [], [], [], 0, 0, 0, 0, 0⟩

/-- Embeds `PerformanceMetrics.reset`: clears every container and counter (the
refreshed `start_time` is outside the model). -/
def metricsReset (_m : MetricsState) : MetricsState := initMetricsState

/-- The mutable state of a `DSDecoder`. Note that the decoder's own
`signal_processor` (`signal`) is a distinct object from the adapter's
internal one (`adapter.signal`): `DSDecoder.__init__` constructs both. -/
structure DSDecoderState where
  adapter : AdapterState
  signal : SignalState
  globalStats : GlobalStats
  metrics : MetricsState
  recent_performance : List ℚ

/-- A freshly constructed `DSDecoder`. -/
def initDSDecoderState : DSDecoderState :=
  ⟨initAdapterState, initSignalState, initGlobalStats, initMetricsState, []⟩

/-- Embeds `DSDecoder.reset_stats`: resets `global_stats` and
`recent_performance`, clears `sl_adapter.sequence_states` and
`sl_adapter.sequence_performance`, and clears the histories of the decoder's
`self.signal_processor` — but not those of the adapter's internal
`sl_adapter.signal_processor`, the one `predict_optimal_sl` reads. -/
def resetStats (s : DSDecoderState) : DSDecoderState :=
  { s with
    globalStats := initGlobalStats
    recent_performance := []
    adapter := { s.adapter with
      perf := fun _ => none
      seqStates := fun _ => none }
    signal := initSignalState }

/-- A decoder state whose adapter-internal signal processor holds four KLD
samples for sequence "seq": reachable from a fresh decoder by
`decoder.sl_adapter.signal_processor.kld_signal.update_history("seq", [0.0, 0.0, 0.0, 0.0])`. -/
def seededDecoderState : DSDecoderState :=
  { initDSDecoderState with
    adapter := { initAdapterState with
      signal := { initSignalState with
        kldHists := updateKldHistory defaultSignalConfig initSignalState.kldHists
          "seq" [0, 0, 0, 0] } } }

/-- The adapter component of `resetStats seededDecoderState`, written out:
performance and sequence-state dicts cleared, the internal signal histories
untouched. -/
def seededResetAdapter : AdapterState :=
  { perf := fun _ => none
    seqStates := fun _ => none
    signal := { kldHists := updateKldHistory defaultSignalConfig
                  initSignalState.kldHists "seq" [0, 0, 0, 0]
                entHists := fun _ => none } }

/-! ### The speculation round (`core.py`): per-sequence failure handling.
The draft and target collaborators are abstract `Except`-valued functions; a
`.error` models an exception thrown by the collaborator call, caught by the
per-sequence `try/except` blocks of `_generate_draft_tokens` /
`_verify_with_target`. -/

/-- Result entry from `DSDecoder._generate_draft_tokens` for one sequence. -/
structure DraftResult (L : Type) where
  tokens : List String
  logits : List L
  speculation_length : ℤ

/-- Result entry from `DSDecoder._verify_with_target` for one sequence. The
failure fallback dict carries no `is_complete` key, which
`.get('is_complete', False)` reads back as `false`. -/
structure VerificationResult (L : Type) where
  accepted_tokens : ℤ
  target_logits : List L
  accepted_text : String
  is_complete : Bool

/-- The per-sequence `try/except` of `_generate_draft_tokens`: a draft
collaborator failure yields the fallback
`{'tokens': [], 'logits': [], 'speculation_length': 1}`. -/
def draftFor {L : Type} (draftGen : String → ℤ → Except String (DraftResult L))
    (sid : String) (sl : ℤ) : DraftResult L :=
  match draftGen sid sl with
  | .ok d => d
  | .error _ => ⟨[], [], 1⟩

/-- The per-sequence `try/except` of `_verify_with_target`: a verification
collaborator failure yields
`{'accepted_tokens': 0, 'target_logits': [], 'accepted_text': ''}`. -/
def verifyFor {L : Type}
    (verify : String → DraftResult L → Except String (VerificationResult L))
    (sid : String) (d : DraftResult L) : VerificationResult L :=
  match verify sid d with
  | .ok v => v
  | .error _ => ⟨0, [], "", false⟩

/-- A per-sequence result dict of `_process_verification_result`. The success
path never sets the `'error'` key (`error = none`); only its `except` branch
would, and that pure computation cannot fail in the model. -/
structure RoundResult where
  new_text : String
  tokens_generated : ℤ
  tokens_accepted : ℤ
  acceptance_rate : ℚ
  speculation_length : ℤ
  signal_metrics : Option SignalStepResults
  is_complete : Bool
  error : Option String

/-- The decoder-owned state mutated while processing one round: the decoder's
signal processor and the adapter's performance dict. -/
structure RoundState where
  signal : SignalState
  perf : String → Option PerfEntry

/-- The signal-processor update inside `_process_verification_result`: the
step runs only when both logit lists are nonempty (`if draft_logits and
target_logits:`), else the signal metrics stay empty. -/
def stepSignalUpdate {L : Type} (cfg : SignalConfig) (rawKld : L → L → Option ℚ)
    (rawEntropy : L → Option ℚ) (sig : SignalState) (sid : String)
    (draft : DraftResult L) (verif : VerificationResult L) :
    SignalState × Option SignalStepResults :=
  if draft.logits.isEmpty ∨ verif.target_logits.isEmpty then (sig, none)
  else
    ((processVerificationStep cfg rawKld rawEntropy sig sid draft.logits
        verif.target_logits verif.accepted_tokens).1,
     some (processVerificationStep cfg rawKld rawEntropy sig sid draft.logits
        verif.target_logits verif.accepted_tokens).2)

/-- Embeds `DSDecoder._process_verification_result`. -/
def processVerificationResult {L : Type} (cfg : SignalConfig)
    (rawKld : L → L → Option ℚ) (rawEntropy : L → Option ℚ) (st : RoundState)
    (sid : String) (draft : DraftResult L) (verif : VerificationResult L)
    (speculationLength : ℤ) : RoundState × RoundResult :=
  (⟨(stepSignalUpdate cfg rawKld rawEntropy st.signal sid draft verif).1,
    updatePerformance st.perf sid speculationLength verif.accepted_tokens
      (draft.tokens.length : ℤ)⟩,
   { new_text := verif.accepted_text
     tokens_generated := (draft.tokens.length : ℤ)
     tokens_accepted := verif.accepted_tokens
     acceptance_rate := (verif.accepted_tokens : ℚ) /
       ((max ((draft.tokens.length : ℤ)) 1 : ℤ) : ℚ)
     speculation_length := speculationLength
     signal_metrics :=
       (stepSignalUpdate cfg rawKld rawEntropy st.signal sid draft verif).2
     is_complete := verif.is_complete
     error := none })

/-- One speculation round (`DSDecoder._perform_speculation_round`), processed
sequentially over the active sequence ids with their capped speculation
lengths (`sls[i] if i < len(sls) else 4`). The source computes all draft
results, then all verification results, then processes them per sequence;
since the collaborator calls are pure functions of the sequence id and its
length, fusing the three per-sequence loops preserves every per-sequence
value, and the results dict (keyed by the unique sequence ids, in insertion
order) is carried as an association list. The timing-only
`performance_metrics.update_round_metrics` call is outside the model. -/
def performSpeculationRound {L : Type} (cfg : SignalConfig)
    (rawKld : L → L → Option ℚ) (rawEntropy : L → Option ℚ)
    (draftGen : String → ℤ → Except String (DraftResult L))
    (verify : String → DraftResult L → Except String (VerificationResult L)) :
    RoundState → List String → List ℤ → RoundState × List (String × RoundResult)
  | st, [], _ => (st, [])
  | st, sid :: rest, sls =>
    ((performSpeculationRound cfg rawKld rawEntropy draftGen verify
        (processVerificationResult cfg rawKld rawEntropy st sid
          (draftFor draftGen sid (sls.headD 4))
          (verifyFor verify sid (draftFor draftGen sid (sls.headD 4)))
          (sls.headD 4)).1 rest sls.tail).1,
     (sid, (processVerificationResult cfg rawKld rawEntropy st sid
        (draftFor draftGen sid (sls.headD 4))
        (verifyFor verify sid (draftFor draftGen sid (sls.headD 4)))
        (sls.headD 4)).2) ::
      (performSpeculationRound cfg rawKld rawEntropy draftGen verify
        (processVerificationResult cfg rawKld rawEntropy st sid
          (draftFor draftGen sid (sls.headD 4))
          (verifyFor verify sid (draftFor draftGen sid (sls.headD 4)))
          (sls.headD 4)).1 rest sls.tail).2)

/-- The per-round result recorded for a sequence whose draft and verification
collaborators both failed: zero tokens, not complete, no error field. -/
def emptyRoundResult (sl : ℤ) : RoundResult :=
  ⟨"", 0, 0, 0, sl, none, false, none⟩

/-- The per-round result recorded for a sequence whose draft stage succeeded
but whose verification collaborator failed: the drafted token count is still
recorded as `tokens_generated`, with zero accepted tokens, acceptance rate 0,
empty signal metrics, not complete, and no error field. -/
def verifyFailRoundResult (tokensGenerated sl : ℤ) : RoundResult :=
  ⟨"", tokensGenerated, 0, 0, sl, none, false, none⟩

/-! ### Theorems: numeric-helper facts, shared lemmas, and the
claim-settling theorems with their witnesses and counterexamples. -/

theorem npVar_nonneg (l : List ℚ) : 0 ≤ npVar l := by
  apply div_nonneg
  · apply List.sum_nonneg
    intro x hx
    obtain ⟨y, _, rfl⟩ := List.mem_map.1 hx
    positivity
  · exact_mod_cast Nat.zero_le _

theorem pyRound_bounds (q : ℚ) : ⌊q⌋ ≤ pyRound q ∧ pyRound q ≤ ⌊q⌋ + 1 := by
  unfold pyRound
  split_ifs <;> omega

theorem pyRound_intCast (n : ℤ) : pyRound (n : ℚ) = n := by
  unfold pyRound
  rw [Int.floor_intCast]
  norm_num

/-- Monotone bound: if `q ≤ n` for an integer `n`, then `pyRound q ≤ n`. -/
theorem pyRound_le_intCast {q : ℚ} {n : ℤ} (h : q ≤ (n : ℚ)) : pyRound q ≤ n := by
  have hf : ⌊q⌋ ≤ n := by
    have := Int.floor_le_floor h
    rwa [Int.floor_intCast] at this
  rcases eq_or_lt_of_le hf with heq | hlt
  · have hq : q - ⌊q⌋ < 1/2 := by
      rw [heq]
      have : q - (n : ℚ) ≤ 0 := by linarith
      linarith
    unfold pyRound
    rw [if_pos hq, heq]
  · have := (pyRound_bounds q).2
    omega

theorem pyInt_eq_floor {q : ℚ} (h : 0 ≤ q) : pyInt q = ⌊q⌋ := if_pos h

theorem pySliceLast_of_length_le {k : ℕ} {l : List ℚ} (h : l.length ≤ k) :
    pySliceLast k l = l := by
  unfold pySliceLast
  split_ifs
  · rfl
  · rw [Nat.sub_eq_zero_of_le h, List.drop_zero]

/-- C5: `KLDVarianceSignal.get_regional_stability` always returns a value in
[0,1], and returns exactly 0.5 whenever the sequence is unknown or its stored
history has fewer than `min_history_length` samples. -/
theorem regional_stability_range_and_neutral_default
    (cfg : SignalConfig) (hists : String → Option (List ℚ)) (sid : String) :
    (0 ≤ getRegionalStability cfg hists sid ∧ getRegionalStability cfg hists sid ≤ 1) ∧
    (hists sid = none → getRegionalStability cfg hists sid = 1/2) ∧
    (∀ h, hists sid = some h → h.length < cfg.min_history_length →
      getRegionalStability cfg hists sid = 1/2) := by
  refine ⟨?_, ?_, ?_⟩
  · unfold getRegionalStability
    rcases hh : hists sid with _ | h
    · norm_num
    · simp only
      split_ifs with h1 h2
      · norm_num
      · norm_num
      · constructor
        · exact le_min (by norm_num) (le_max_left 0 _)
        · exact min_le_left 1 _
  · intro hnone
    unfold getRegionalStability
    rw [hnone]
  · intro h hsome hlen
    unfold getRegionalStability
    rw [hsome]
    simp only [if_pos hlen]

/-- Witness for C5: a never-seen sequence id yields exactly 0.5. -/
theorem regional_stability_witness :
    getRegionalStability defaultSignalConfig (fun _ => none) "seq" = 1/2 :=
  (regional_stability_range_and_neutral_default defaultSignalConfig
    (fun _ => none) "seq").2.1 rfl

/-- C6: `WVIRCalculator.calculate_wvir` always returns a value in [0,10]; when
the long-window variance is 0 (default config), it returns 1.0 if the
short-window variance is positive and 0.0 otherwise; in particular, zero
variance in both windows yields exactly 0.0. -/
theorem calculate_wvir_range_and_zero_variance :
    (∀ (cfg : SignalConfig) (h : List ℚ),
      0 ≤ calculateWvir cfg h ∧ calculateWvir cfg h ≤ 10) ∧
    (∀ h : List ℚ, wvirLongVar defaultSignalConfig h = 0 →
      calculateWvir defaultSignalConfig h =
        if 0 < wvirShortVar defaultSignalConfig h then 1 else 0) ∧
    (∀ h : List ℚ, wvirShortVar defaultSignalConfig h = 0 →
      wvirLongVar defaultSignalConfig h = 0 →
      calculateWvir defaultSignalConfig h = 0) := by
  have range : ∀ (cfg : SignalConfig) (h : List ℚ),
      0 ≤ calculateWvir cfg h ∧ calculateWvir cfg h ≤ 10 := by
    intro cfg h
    unfold calculateWvir
    split_ifs with h1 h2 h3
    · norm_num
    · norm_num
    · norm_num
    · constructor
      · exact le_min (by norm_num) (le_max_left 0 _)
      · exact min_le_left 10 _
  have condzero : ∀ h : List ℚ, wvirLongVar defaultSignalConfig h = 0 →
      calculateWvir defaultSignalConfig h =
        if 0 < wvirShortVar defaultSignalConfig h then 1 else 0 := by
    intro h hlv
    by_cases h1 : h.length < defaultSignalConfig.short_window_size
    · -- history shorter than the short window: both windows are the whole
      -- history, so zero long-window variance forces zero short-window
      -- variance and both sides are 0.
      have h4 : h.length < 4 := h1
      have hshort : wvirShortWindow defaultSignalConfig h = h := by
        apply pySliceLast_of_length_le
        show h.length ≤ 4
        omega
      have hlong : wvirLongWindow defaultSignalConfig h = h := by
        unfold wvirLongWindow
        rw [if_neg]
        show ¬ (12 ≤ h.length)
        omega
      have hsv : wvirShortVar defaultSignalConfig h = 0 := by
        have heq : wvirShortVar defaultSignalConfig h =
            wvirLongVar defaultSignalConfig h := by
          unfold wvirShortVar wvirLongVar
          rw [hshort, hlong]
        exact heq.trans hlv
      unfold calculateWvir
      rw [if_pos h1, hsv, if_neg (lt_irrefl 0)]
    · unfold calculateWvir
      rw [if_neg h1, if_pos hlv]
  refine ⟨range, condzero, ?_⟩
  intro h hsv hlv
  rw [condzero h hlv, hsv]
  norm_num

/-- Witness for C6: the constant history [1,1,1,1] has zero variance in both
windows and WVIR exactly 0. -/
theorem calculate_wvir_witness :
    calculateWvir defaultSignalConfig [1, 1, 1, 1] = 0 :=
  calculate_wvir_range_and_zero_variance.2.2 [1, 1, 1, 1]
    (by norm_num [wvirShortVar, wvirShortWindow, pySliceLast, npVar, mean,
      defaultSignalConfig])
    (by norm_num [wvirLongVar, wvirLongWindow, pySliceLast, npVar, mean,
      defaultSignalConfig])

/-- C1: for every valid configuration (positive bounds, `min ≤ max`), every
adapter state, sequence id and optional context, the value returned by
`predict_optimal_sl` lies in
`[min_speculation_length, max_speculation_length]`. -/
theorem predict_optimal_sl_within_bounds
    (acfg : AdapterConfig) (scfg : SignalConfig) (st : AdapterState)
    (sid : String) (ctx : Option ContextInfo)
    (hmin : 0 < acfg.min_speculation_length)
    (hle : acfg.min_speculation_length ≤ acfg.max_speculation_length) :
    acfg.min_speculation_length ≤ predictOptimalSl acfg scfg st sid ctx ∧
    predictOptimalSl acfg scfg st sid ctx ≤ acfg.max_speculation_length := by
  have hlow : (acfg.min_speculation_length : ℚ) ≤ clampedSl acfg scfg st sid ctx :=
    le_max_left _ _
  have hhigh : clampedSl acfg scfg st sid ctx ≤ (acfg.max_speculation_length : ℚ) := by
    unfold clampedSl
    apply max_le
    · exact_mod_cast hle
    · exact min_le_left _ _
  have hpos : (0 : ℚ) ≤ clampedSl acfg scfg st sid ctx := by
    have h0 : (0 : ℚ) ≤ (acfg.min_speculation_length : ℚ) := by exact_mod_cast hmin.le
    linarith
  unfold predictOptimalSl
  rw [pyInt_eq_floor hpos]
  constructor
  · exact Int.le_floor.2 hlow
  · have h1 := Int.floor_le_floor hhigh
    rwa [Int.floor_intCast] at h1

/-- Witness for C1 at the default configuration, a fresh adapter and no
context. -/
theorem predict_optimal_sl_within_bounds_witness :
    defaultAdapterConfig.min_speculation_length ≤
      predictOptimalSl defaultAdapterConfig defaultSignalConfig initAdapterState
        "seq" none ∧
    predictOptimalSl defaultAdapterConfig defaultSignalConfig initAdapterState
        "seq" none ≤ defaultAdapterConfig.max_speculation_length :=
  predict_optimal_sl_within_bounds defaultAdapterConfig defaultSignalConfig
    initAdapterState "seq" none (by decide) (by decide)

/-- C2 counterexample: for a fresh sequence with context
`{'task_type': 'code_generation'}` under the default configuration, the
clamped context-adjusted length is 4.7025, whose nearest integer is 5, but
`predict_optimal_sl` returns 4 — the code truncates (`int(final_sl)`) instead
of rounding to nearest. -/
theorem predict_optimal_sl_rounds_counterexample :
    clampedSl defaultAdapterConfig defaultSignalConfig initAdapterState "seq"
      (some ctxCodeGeneration) = 1881/400 ∧
    specRoundNearest (1881/400) = 5 ∧
    predictOptimalSl defaultAdapterConfig defaultSignalConfig initAdapterState "seq"
      (some ctxCodeGeneration) = 4 := by
  have hclamp : clampedSl defaultAdapterConfig defaultSignalConfig initAdapterState
      "seq" (some ctxCodeGeneration) = 1881/400 := by
    norm_num [clampedSl, contextAdjustedSl, getSequenceMetrics, initAdapterState,
      initSignalState, getRegionalStability, predictFromStability, adjustForHistory,
      adjustForContext, ctxCodeGeneration, defaultAdapterConfig, defaultSignalConfig,
      defaultPerfEntry]
  refine ⟨hclamp, ?_, ?_⟩
  · norm_num [specRoundNearest, Int.floor_eq_iff]
  · rw [predictOptimalSl, hclamp, pyInt]
    norm_num [Int.floor_eq_iff]

/-- C2 amended: the value returned by `predict_optimal_sl` is the
context-adjusted speculation length clamped to
`[min_speculation_length, max_speculation_length]` and then truncated toward
zero — which equals its floor, since the clamp keeps it positive. (A clamped
value of 4.6 therefore yields 4, not 5.) -/
theorem predict_optimal_sl_is_floor_of_clamped
    (acfg : AdapterConfig) (scfg : SignalConfig) (st : AdapterState)
    (sid : String) (ctx : Option ContextInfo)
    (hmin : 0 < acfg.min_speculation_length) :
    predictOptimalSl acfg scfg st sid ctx = ⌊clampedSl acfg scfg st sid ctx⌋ := by
  unfold predictOptimalSl
  apply pyInt_eq_floor
  have h0 : (0 : ℚ) ≤ (acfg.min_speculation_length : ℚ) := by exact_mod_cast hmin.le
  have := le_max_left (acfg.min_speculation_length : ℚ)
    (min (acfg.max_speculation_length : ℚ) (contextAdjustedSl acfg scfg st sid ctx))
  unfold clampedSl
  linarith

/-- Witness for the amended C2 at the counterexample's input. -/
theorem predict_optimal_sl_is_floor_of_clamped_witness :
    predictOptimalSl defaultAdapterConfig defaultSignalConfig initAdapterState "seq"
      (some ctxCodeGeneration) =
    ⌊clampedSl defaultAdapterConfig defaultSignalConfig initAdapterState "seq"
      (some ctxCodeGeneration)⌋ :=
  predict_optimal_sl_is_floor_of_clamped defaultAdapterConfig defaultSignalConfig
    initAdapterState "seq" (some ctxCodeGeneration) (by decide)

theorem mean_nonneg {l : List ℚ} (h : ∀ x ∈ l, 0 ≤ x) : 0 ≤ mean l := by
  unfold mean
  apply div_nonneg (List.sum_nonneg h)
  exact_mod_cast Nat.zero_le _

/-- A straggler pulled toward the mean never moves above its current value,
provided the batch values are nonnegative, `straggler_tolerance ≥ 2`, and the
smoothing precondition `std > mean/2` (i.e. `var > (mean/2)²`) holds. -/
theorem balanceElement_le (cfg : AdapterConfig) (meanSl varSl : ℚ) (sl : ℤ)
    (hm : 0 ≤ meanSl) (hsl : 0 ≤ sl) (htol : 2 ≤ cfg.straggler_tolerance)
    (hv : (meanSl * (1/2)) ^ 2 < varSl) :
    balanceElement cfg meanSl varSl sl ≤ sl := by
  have hslq : (0 : ℚ) ≤ (sl : ℚ) := by exact_mod_cast hsl
  unfold balanceElement
  split_ifs with hcond
  · rcases hcond with ⟨hneg, _⟩ | hsq
    · linarith
    · have hv0 : 0 ≤ varSl := le_of_lt (lt_of_le_of_lt (sq_nonneg _) hv)
      have ht2 : (4 : ℚ) ≤ cfg.straggler_tolerance ^ 2 := by nlinarith
      have h4 : 4 * varSl ≤ cfg.straggler_tolerance ^ 2 * varSl :=
        mul_le_mul_of_nonneg_right ht2 hv0
      have hm2 : meanSl ^ 2 < ((sl : ℚ) - meanSl) ^ 2 := by nlinarith
      have hslm : meanSl < (sl : ℚ) := by
        by_contra hc
        push_neg at hc
        have h1 : (0 : ℚ) ≤ meanSl - (sl : ℚ) := by linarith
        have h2 : meanSl - (sl : ℚ) ≤ meanSl := by linarith
        have h3 := mul_self_le_mul_self h1 h2
        nlinarith
      have harg : (sl : ℚ) + 3/10 * (meanSl - (sl : ℚ)) ≤ (sl : ℚ) := by linarith
      have hr := pyRound_le_intCast harg
      have hsl1 : 1 ≤ sl := by
        have h0 : (0 : ℚ) < (sl : ℚ) := lt_of_le_of_lt hm hslm
        have : 0 < sl := by exact_mod_cast h0
        omega
      exact max_le hsl1 (le_trans (min_le_right _ _) hr)
  · exact le_refl sl

/-- The balancing pass preserves length and never increases any element, for
batches of nonnegative lengths under `straggler_tolerance ≥ 2`. -/
theorem applyBatchBalancing_le (cfg : AdapterConfig) (sls : List ℤ)
    (htol : 2 ≤ cfg.straggler_tolerance) (hpos : ∀ x ∈ sls, 0 ≤ x) :
    (applyBatchBalancing cfg sls).length = sls.length ∧
    ∀ i, (hi : i < sls.length) →
      (applyBatchBalancing cfg sls).getD i 0 ≤ sls.getD i 0 := by
  have hmapnn : ∀ x ∈ castList sls, 0 ≤ x := by
    intro x hx
    rw [castList] at hx
    obtain ⟨y, hy, rfl⟩ := List.mem_map.1 hx
    exact_mod_cast hpos y hy
  have hm : 0 ≤ mean (castList sls) := mean_nonneg hmapnn
  unfold applyBatchBalancing
  split_ifs with h1 h2
  · exact ⟨rfl, fun i hi => le_refl _⟩
  · have hv : (mean (castList sls) * (1/2)) ^ 2 < npVar (castList sls) := by
      rcases h2 with hlt | hlt
      · linarith
      · exact hlt
    constructor
    · exact List.length_map _ _
    · intro i hi
      have hi2 : i < (sls.map (balanceElement cfg
          (mean (castList sls)) (npVar (castList sls)))).length := by
        simpa using hi
      rw [List.getD_eq_getElem _ _ hi2, List.getD_eq_getElem _ _ hi,
        List.getElem_map]
      exact balanceElement_le cfg _ _ _ hm (hpos _ (List.getElem_mem hi)) htol hv
  · exact ⟨rfl, fun i hi => le_refl _⟩

/-- C3: for every non-empty batch of nonnegative predictions (no priorities,
default config), the returned `sl_cap` is the rounded clamped mean, the
optimized list has the same length, every optimized length is at most
`sl_cap` and at most its corresponding input, and the batch [2,3,6] yields
exactly ([2,3,4], 4). -/
theorem optimize_batch_cap_and_never_increases
    (l : List ℤ) (hne : ¬ l.isEmpty) (hpos : ∀ x ∈ l, 0 ≤ x) :
    (optimizeBatchSpeculationLengths defaultAdapterConfig l none).2 =
      max defaultAdapterConfig.min_speculation_length
        (min defaultAdapterConfig.max_speculation_length
          (pyRound (mean (castList l)))) ∧
    (optimizeBatchSpeculationLengths defaultAdapterConfig l none).1.length =
      l.length ∧
    (∀ i, i < l.length →
      (optimizeBatchSpeculationLengths defaultAdapterConfig l none).1.getD i 0 ≤
        (optimizeBatchSpeculationLengths defaultAdapterConfig l none).2 ∧
      (optimizeBatchSpeculationLengths defaultAdapterConfig l none).1.getD i 0 ≤
        l.getD i 0) ∧
    optimizeBatchSpeculationLengths defaultAdapterConfig [2, 3, 6] none =
      ([2, 3, 4], 4) := by
  have hO : optimizeBatchSpeculationLengths defaultAdapterConfig l none =
      (applyBatchBalancing defaultAdapterConfig
        (l.map (fun sl => min sl (calculateAdaptiveSlCap defaultAdapterConfig l none))),
       calculateAdaptiveSlCap defaultAdapterConfig l none) := by
    unfold optimizeBatchSpeculationLengths
    rw [if_neg hne]
  have hcap : calculateAdaptiveSlCap defaultAdapterConfig l none =
      max defaultAdapterConfig.min_speculation_length
        (min defaultAdapterConfig.max_speculation_length
          (pyRound (mean (castList l)))) := by
    unfold calculateAdaptiveSlCap
    rw [if_neg hne]
  have hcap1 : 1 ≤ calculateAdaptiveSlCap defaultAdapterConfig l none := by
    rw [hcap]
    exact le_trans (by decide) (le_max_left _ _)
  have hposc : ∀ x ∈ l.map (fun sl =>
      min sl (calculateAdaptiveSlCap defaultAdapterConfig l none)), 0 ≤ x := by
    intro x hx
    obtain ⟨y, hy, rfl⟩ := List.mem_map.1 hx
    exact le_min (hpos y hy) (by omega)
  have htol : 2 ≤ defaultAdapterConfig.straggler_tolerance := le_refl _
  obtain ⟨hlen, hle⟩ := applyBatchBalancing_le defaultAdapterConfig
    (l.map (fun sl => min sl (calculateAdaptiveSlCap defaultAdapterConfig l none)))
    htol hposc
  refine ⟨?_, ?_, ?_, ?_⟩
  · rw [hO, hcap]
  · rw [hO]
    simpa using hlen
  · intro i hi
    have hi2 : i < (l.map (fun sl =>
        min sl (calculateAdaptiveSlCap defaultAdapterConfig l none))).length := by
      simpa using hi
    have hstep := hle i hi2
    have hmapD : (l.map (fun sl =>
        min sl (calculateAdaptiveSlCap defaultAdapterConfig l none))).getD i 0 =
        min (l.getD i 0) (calculateAdaptiveSlCap defaultAdapterConfig l none) := by
      rw [List.getD_eq_getElem _ _ hi2, List.getD_eq_getElem _ _ hi,
        List.getElem_map]
    rw [hmapD] at hstep
    constructor
    · rw [hO]
      exact le_trans hstep (min_le_right _ _)
    · rw [hO]
      exact le_trans hstep (min_le_left _ _)
  · have hcapex : calculateAdaptiveSlCap defaultAdapterConfig [2, 3, 6] none = 4 := by
      have hm : mean (castList [2, 3, 6]) = 11/3 := by
        norm_num [castList, mean]
      unfold calculateAdaptiveSlCap
      rw [if_neg (by decide)]
      show max defaultAdapterConfig.min_speculation_length
        (min defaultAdapterConfig.max_speculation_length
          (pyRound (mean (castList [2, 3, 6])))) = 4
      rw [hm]
      have hr : pyRound (11/3) = 4 := by
        rw [pyRound]
        norm_num [Int.floor_eq_iff]
      rw [hr]
      decide
    have hbal : applyBatchBalancing defaultAdapterConfig [2, 3, 4] = [2, 3, 4] := by
      unfold applyBatchBalancing
      rw [if_neg (by decide), if_neg]
      rw [gtSqrt]
      push_neg
      constructor
      · norm_num [castList, mean]
      · norm_num [castList, mean, npVar]
    unfold optimizeBatchSpeculationLengths
    rw [if_neg (by decide), hcapex]
    show (applyBatchBalancing defaultAdapterConfig [min 2 4, min 3 4, min 6 4], 4) =
      ([2, 3, 4], 4)
    norm_num [hbal]

/-- Witness for C3 at the batch [2,3,6]. -/
theorem optimize_batch_cap_and_never_increases_witness :
    optimizeBatchSpeculationLengths defaultAdapterConfig [2, 3, 6] none =
      ([2, 3, 4], 4) :=
  (optimize_batch_cap_and_never_increases [2, 3, 6] (by decide)
    (by intro x hx; fin_cases hx <;> decide)).2.2.2

/-- C7 counterexample: the batch [2,3] has mean 2.5, and the computed
`sl_cap` is 2, not the 3 that round-half-up would give — Python's `round`
rounds ties to the nearest even integer. -/
theorem batch_cap_tie_counterexample :
    (optimizeBatchSpeculationLengths defaultAdapterConfig [2, 3] none).2 = 2 ∧
    (2 : ℤ) ≠ 3 := by
  constructor
  · have hm : mean (castList [2, 3]) = 5/2 := by norm_num [castList, mean]
    have hr : pyRound (5/2) = 2 := by
      rw [pyRound]
      norm_num [Int.floor_eq_iff]
    unfold optimizeBatchSpeculationLengths
    rw [if_neg (by decide)]
    show calculateAdaptiveSlCap defaultAdapterConfig [2, 3] none = 2
    unfold calculateAdaptiveSlCap
    rw [if_neg (by decide)]
    show max defaultAdapterConfig.min_speculation_length
      (min defaultAdapterConfig.max_speculation_length
        (pyRound (mean (castList [2, 3])))) = 2
    rw [hm, hr]
    decide
  · decide

/-- C7 amended: when the (unweighted) mean of the predictions is exactly
halfway between two integers, the batch cap follows Python's
round-half-to-even: a mean of k + 1/2 rounds to k for even k and to k + 1 for
odd k (then clamps to the default bounds), so [2,3] yields cap 2 and [3,4]
yields cap 4. -/
theorem batch_cap_rounds_half_to_even (l : List ℤ) (k : ℤ)
    (hne : ¬ l.isEmpty) (hmean : mean (castList l) = (k : ℚ) + 1/2) :
    (optimizeBatchSpeculationLengths defaultAdapterConfig l none).2 =
      max 1 (min 8 (if k % 2 = 0 then k else k + 1)) := by
  have hf : ⌊(k : ℚ) + 1/2⌋ = k := by
    rw [Int.floor_int_add]
    norm_num [Int.floor_eq_iff]
  have hr : pyRound ((k : ℚ) + 1/2) = if k % 2 = 0 then k else k + 1 := by
    rw [pyRound, hf]
    have h1 : ((k : ℚ) + 1/2) - k = 1/2 := by ring
    rw [h1]
    norm_num
  unfold optimizeBatchSpeculationLengths
  rw [if_neg hne]
  show calculateAdaptiveSlCap defaultAdapterConfig l none =
    max 1 (min 8 (if k % 2 = 0 then k else k + 1))
  unfold calculateAdaptiveSlCap
  rw [if_neg hne]
  show max defaultAdapterConfig.min_speculation_length
    (min defaultAdapterConfig.max_speculation_length
      (pyRound (mean (castList l)))) =
    max 1 (min 8 (if k % 2 = 0 then k else k + 1))
  rw [hmean, hr]
  rfl

/-- Witness for the amended C7: the batch [3,4] (mean 3.5, odd tie) rounds up
to cap 4. -/
theorem batch_cap_rounds_half_to_even_witness :
    (optimizeBatchSpeculationLengths defaultAdapterConfig [3, 4] none).2 =
      max 1 (min 8 (if (3 : ℤ) % 2 = 0 then 3 else 3 + 1)) :=
  batch_cap_rounds_half_to_even [3, 4] 3 (by decide)
    (by norm_num [castList, mean])

/-- C10: on the empty prediction list both batch optimizers (adapter.py and
utils.py) return the pair ([], 0) for every priority argument; the returned
cap 0 lies strictly below the default `min_speculation_length`, since neither
rounding nor clamping runs on this path. -/
theorem optimize_batch_empty_returns_zero_cap (prios : Option (List ℚ)) :
    optimizeBatchSpeculationLengths defaultAdapterConfig [] prios = ([], 0) ∧
    utilsOptimizeBatchSpeculationLengths [] prios = ([], 0) ∧
    (0 : ℤ) < defaultAdapterConfig.min_speculation_length :=
  ⟨rfl, rfl, by decide⟩

theorem boundedPush_length_le {α : Type} (cap : ℕ) (l : List α) (x : α) :
    (boundedPush cap l x).length ≤ max cap (l.length + 1) := by
  unfold boundedPush
  rw [List.length_drop, List.length_append, List.length_singleton]
  omega

theorem boundedPush_length_le_of_le {α : Type} {cap : ℕ} {l : List α} (x : α)
    (h : l.length ≤ cap) : (boundedPush cap l x).length ≤ cap := by
  unfold boundedPush
  rw [List.length_drop, List.length_append, List.length_singleton]
  omega

theorem foldl_boundedPush_length_le {α : Type} {cap : ℕ} (vals : List α) :
    ∀ l : List α, l.length ≤ cap → (vals.foldl (boundedPush cap) l).length ≤ cap := by
  induction vals with
  | nil => intro l h; exact h
  | cons v vs ih =>
    intro l h
    exact ih (boundedPush cap l v) (boundedPush_length_le_of_le v h)

theorem boundedPush_of_full {α : Type} {cap : ℕ} {l : List α} (x : α)
    (hfull : l.length = cap) (hpos : 0 < cap) :
    boundedPush cap l x = l.tail ++ [x] := by
  unfold boundedPush
  have h1 : l.length + 1 - cap = 1 := by omega
  rw [h1, List.drop_append_of_le_length (by omega), List.drop_one]

theorem boundedPush_of_not_full {α : Type} {cap : ℕ} {l : List α} (x : α)
    (h : l.length < cap) : boundedPush cap l x = l ++ [x] := by
  unfold boundedPush
  rw [Nat.sub_eq_zero_of_le (by omega), List.drop_zero]

/-- C9: the per-sequence KLD histories never exceed `long_window_size`
samples and the entropy histories never exceed 10; a push into a full history
evicts exactly the oldest sample and keeps the rest in order (and a push into
a non-full history just appends); the bound is preserved by
`KLDVarianceSignal.update_history`, `EntropySignal.update_history` and by a
whole `process_verification_step`. -/
theorem signal_histories_bounded_ring_buffer {L : Type} :
    (∀ (cap : ℕ) (l : List ℚ) (x : ℚ), l.length = cap → 0 < cap →
      boundedPush cap l x = l.tail ++ [x]) ∧
    (∀ (cap : ℕ) (l : List ℚ) (x : ℚ), l.length < cap →
      boundedPush cap l x = l ++ [x]) ∧
    (∀ (cfg : SignalConfig) (hists : String → Option (List ℚ)) (sid : String)
      (vals : List ℚ),
      (∀ s, ((hists s).getD []).length ≤ cfg.long_window_size) →
      ∀ s, ((updateKldHistory cfg hists sid vals s).getD []).length ≤
        cfg.long_window_size) ∧
    (∀ (hists : String → Option (List ℚ)) (sid : String) (e : ℚ),
      (∀ s, ((hists s).getD []).length ≤ 10) →
      ∀ s, ((updateEntropyHistory hists sid e s).getD []).length ≤ 10) ∧
    (∀ (cfg : SignalConfig) (rawKld : L → L → Option ℚ)
      (rawEntropy : L → Option ℚ) (st : SignalState) (sid : String)
      (draftLogits targetLogits : List L) (acceptedTokens : ℤ),
      SignalState.Invariant cfg st →
      SignalState.Invariant cfg
        (processVerificationStep cfg rawKld rawEntropy st sid draftLogits
          targetLogits acceptedTokens).1) := by
  have hkld : ∀ (cfg : SignalConfig) (hists : String → Option (List ℚ))
      (sid : String) (vals : List ℚ),
      (∀ s, ((hists s).getD []).length ≤ cfg.long_window_size) →
      ∀ s, ((updateKldHistory cfg hists sid vals s).getD []).length ≤
        cfg.long_window_size := by
    intro cfg hists sid vals hinv s
    unfold updateKldHistory
    split_ifs with hs
    · exact foldl_boundedPush_length_le vals _ (hinv sid)
    · exact hinv s
  have hent : ∀ (hists : String → Option (List ℚ)) (sid : String) (e : ℚ),
      (∀ s, ((hists s).getD []).length ≤ 10) →
      ∀ s, ((updateEntropyHistory hists sid e s).getD []).length ≤ 10 := by
    intro hists sid e hinv s
    unfold updateEntropyHistory
    split_ifs with hs
    · exact boundedPush_length_le_of_le e (hinv sid)
    · exact hinv s
  refine ⟨fun cap l x h1 h2 => boundedPush_of_full x h1 h2,
    fun cap l x h => boundedPush_of_not_full x h, hkld, hent, ?_⟩
  intro cfg rawKld rawEntropy st sid draftLogits targetLogits acceptedTokens hinv s
  constructor
  · exact hkld cfg st.kldHists sid _ (fun s => (hinv s).1) s
  · show ((stepEntHists rawEntropy st sid draftLogits s).getD []).length ≤ 10
    unfold stepEntHists
    cases draftLogits.head? with
    | none => exact (hinv s).2
    | some l0 => exact hent st.entHists sid _ (fun s => (hinv s).2) s

/-- Witness for C9: pushing 13 into the full 12-sample KLD window evicts the
oldest sample, and the invariant holds after an update on a fresh state. -/
theorem signal_histories_bounded_ring_buffer_witness :
    boundedPush 12 ([1, 2, 3, 4, 5, 6, 7, 8, 9, 10, 11, 12] : List ℚ) 13 =
      [2, 3, 4, 5, 6, 7, 8, 9, 10, 11, 12, 13] ∧
    ∀ s, ((updateKldHistory defaultSignalConfig
      (fun _ => (none : Option (List ℚ))) "seq" [1, 2] s).getD []).length ≤
        defaultSignalConfig.long_window_size := by
  constructor
  · rw [(signal_histories_bounded_ring_buffer (L := Unit)).1
      12 ([1, 2, 3, 4, 5, 6, 7, 8, 9, 10, 11, 12] : List ℚ) 13 (by decide) (by decide)]
    rfl
  · exact (signal_histories_bounded_ring_buffer (L := Unit)).2.2.1
      defaultSignalConfig (fun _ => (none : Option (List ℚ))) "seq" [1, 2]
      (fun s => Nat.zero_le _)

/-- C8: `reset_stats` misses the adapter's internal signal-processor state.
After seeding the adapter's KLD history for "seq" and calling `reset_stats`,
the history is still present (four samples), and `predict_optimal_sl("seq")`
returns 6 — while for a never-seen sequence id (equivalently, a fresh
decoder) it returns 4. This contradicts both the spec ("reset clears all
per-sequence histories; subsequent predictions for a previously-seen sequence
behave identically to a brand-new sequence") and the method's own docstring
("Reset all statistics and state"). -/
theorem reset_stats_misses_adapter_signal_history :
    (resetStats seededDecoderState).adapter.signal.kldHists "seq" =
      some [0, 0, 0, 0] ∧
    predictOptimalSl defaultAdapterConfig defaultSignalConfig
      (resetStats seededDecoderState).adapter "seq" none = 6 ∧
    predictOptimalSl defaultAdapterConfig defaultSignalConfig
      initAdapterState "seq" none = 4 := by
  have hadapter : (resetStats seededDecoderState).adapter = seededResetAdapter := rfl
  have hh : seededResetAdapter.signal.kldHists "seq" = some [0, 0, 0, 0] := by
    show updateKldHistory defaultSignalConfig initSignalState.kldHists
      "seq" [0, 0, 0, 0] "seq" = some [0, 0, 0, 0]
    rw [updateKldHistory]
    simp only [if_pos rfl, initSignalState]
    norm_num [boundedPush, defaultSignalConfig, List.foldl]
  refine ⟨by rw [hadapter, hh], ?_, ?_⟩
  · have hstab : getRegionalStability defaultSignalConfig
        seededResetAdapter.signal.kldHists "seq" = 1 := by
      unfold getRegionalStability
      rw [hh]
      norm_num [defaultSignalConfig, pySliceLast, npVar, mean]
    have hwv : calculateWvir defaultSignalConfig [0, 0, 0, 0] = 0 := by
      unfold calculateWvir wvirShortVar wvirLongVar wvirShortWindow wvirLongWindow
      norm_num [defaultSignalConfig, pySliceLast, npVar, mean]
    have hms : (getSequenceMetrics defaultSignalConfig
        seededResetAdapter.signal "seq").stability = 1 := hstab
    have hmw : (getSequenceMetrics defaultSignalConfig
        seededResetAdapter.signal "seq").wvir = some 0 := by
      unfold getSequenceMetrics
      rw [hh]
      norm_num [hwv]
    have hme : (getSequenceMetrics defaultSignalConfig
        seededResetAdapter.signal "seq").current_entropy = none := rfl
    have hbase : predictFromStability defaultAdapterConfig
        (getSequenceMetrics defaultSignalConfig seededResetAdapter.signal "seq") =
        32/5 := by
      unfold predictFromStability
      rw [hms, hmw, hme]
      norm_num [defaultAdapterConfig, Option.getD]
    have hctx : contextAdjustedSl defaultAdapterConfig defaultSignalConfig
        seededResetAdapter "seq" none = 32/5 := by
      unfold contextAdjustedSl
      rw [hbase, adjustForContext]
      have hrates : ((seededResetAdapter.perf "seq").getD
          defaultPerfEntry).recent_acceptance_rates = [] := rfl
      rw [adjustForHistory, hrates]
      norm_num
    rw [hadapter, predictOptimalSl, clampedSl, hctx, pyInt]
    norm_num [defaultAdapterConfig, Int.floor_eq_iff]
  · have hclamp : clampedSl defaultAdapterConfig defaultSignalConfig
        initAdapterState "seq" none = 9/2 := by
      norm_num [clampedSl, contextAdjustedSl, getSequenceMetrics,
        initAdapterState, initSignalState, getRegionalStability,
        predictFromStability, adjustForHistory, adjustForContext,
        defaultAdapterConfig, defaultSignalConfig, defaultPerfEntry]
    rw [predictOptimalSl, hclamp, pyInt]
    norm_num [Int.floor_eq_iff]

theorem getRegionalStability_congr {cfg : SignalConfig}
    {hists₁ hists₂ : String → Option (List ℚ)} {sid : String}
    (h : hists₁ sid = hists₂ sid) :
    getRegionalStability cfg hists₁ sid = getRegionalStability cfg hists₂ sid := by
  unfold getRegionalStability
  rw [h]

theorem getEntropyTrend_congr {hists₁ hists₂ : String → Option (List ℚ)}
    {sid : String} (h : hists₁ sid = hists₂ sid) :
    getEntropyTrend hists₁ sid = getEntropyTrend hists₂ sid := by
  unfold getEntropyTrend
  rw [h]

theorem predictAcceptanceLikelihood_congr {cfg : SignalConfig}
    {hists₁ hists₂ : String → Option (List ℚ)} {sid : String} {e : Option ℚ}
    (h : hists₁ sid = hists₂ sid) :
    predictAcceptanceLikelihood cfg hists₁ sid e =
      predictAcceptanceLikelihood cfg hists₂ sid e := by
  unfold predictAcceptanceLikelihood
  rw [getRegionalStability_congr h]

theorem stepKldHists_apply_frame {L : Type} {cfg : SignalConfig}
    {rawKld : L → L → Option ℚ} {st : SignalState} {sid s : String}
    {d t : List L} (hne : s ≠ sid) :
    stepKldHists cfg rawKld st sid d t s = st.kldHists s := by
  simp [stepKldHists, updateKldHistory, hne]

theorem stepKldHists_apply_congr {L : Type} {cfg : SignalConfig}
    {rawKld : L → L → Option ℚ} {st₁ st₂ : SignalState} {sid : String}
    {d t : List L} (h : st₁.kldHists sid = st₂.kldHists sid) :
    stepKldHists cfg rawKld st₁ sid d t sid =
      stepKldHists cfg rawKld st₂ sid d t sid := by
  simp only [stepKldHists, updateKldHistory, if_pos rfl, h]

theorem stepEntHists_apply_frame {L : Type} {rawEntropy : L → Option ℚ}
    {st : SignalState} {sid s : String} {d : List L} (hne : s ≠ sid) :
    stepEntHists rawEntropy st sid d s = st.entHists s := by
  unfold stepEntHists
  cases d.head? with
  | none => rfl
  | some l0 => simp [updateEntropyHistory, hne]

theorem stepEntHists_apply_congr {L : Type} {rawEntropy : L → Option ℚ}
    {st₁ st₂ : SignalState} {sid : String} {d : List L}
    (h : st₁.entHists sid = st₂.entHists sid) :
    stepEntHists rawEntropy st₁ sid d sid =
      stepEntHists rawEntropy st₂ sid d sid := by
  unfold stepEntHists
  cases d.head? with
  | none => exact h
  | some l0 => simp only [updateEntropyHistory, if_pos rfl, h]

/-- The results (and the updated histories of the processed sequence) of a
`process_verification_step` depend only on that sequence's own histories. -/
theorem processVerificationStep_congr {L : Type} {cfg : SignalConfig}
    {rawKld : L → L → Option ℚ} {rawEntropy : L → Option ℚ}
    {st₁ st₂ : SignalState} {sid : String} {d t : List L} {a : ℤ}
    (h1 : st₁.kldHists sid = st₂.kldHists sid)
    (h2 : st₁.entHists sid = st₂.entHists sid) :
    (processVerificationStep cfg rawKld rawEntropy st₁ sid d t a).2 =
      (processVerificationStep cfg rawKld rawEntropy st₂ sid d t a).2 ∧
    (processVerificationStep cfg rawKld rawEntropy st₁ sid d t a).1.kldHists sid =
      (processVerificationStep cfg rawKld rawEntropy st₂ sid d t a).1.kldHists sid ∧
    (processVerificationStep cfg rawKld rawEntropy st₁ sid d t a).1.entHists sid =
      (processVerificationStep cfg rawKld rawEntropy st₂ sid d t a).1.entHists sid := by
  have hk : stepKldHists cfg rawKld st₁ sid d t sid =
      stepKldHists cfg rawKld st₂ sid d t sid := stepKldHists_apply_congr h1
  have he : stepEntHists rawEntropy st₁ sid d sid =
      stepEntHists rawEntropy st₂ sid d sid := stepEntHists_apply_congr h2
  refine ⟨?_, hk, he⟩
  unfold processVerificationStep
  simp only [getRegionalStability_congr hk, hk, getEntropyTrend_congr he,
    predictAcceptanceLikelihood_congr hk]

/-- Processing one sequence's verification result leaves every other
sequence's histories untouched. -/
theorem processVerificationResult_frame {L : Type} {cfg : SignalConfig}
    {rawKld : L → L → Option ℚ} {rawEntropy : L → Option ℚ} {st : RoundState}
    {sid s : String} {d : DraftResult L} {v : VerificationResult L} {sl : ℤ}
    (hne : s ≠ sid) :
    (processVerificationResult cfg rawKld rawEntropy st sid d v sl).1.signal.kldHists s =
      st.signal.kldHists s ∧
    (processVerificationResult cfg rawKld rawEntropy st sid d v sl).1.signal.entHists s =
      st.signal.entHists s := by
  show (stepSignalUpdate cfg rawKld rawEntropy st.signal sid d v).1.kldHists s =
      st.signal.kldHists s ∧
    (stepSignalUpdate cfg rawKld rawEntropy st.signal sid d v).1.entHists s =
      st.signal.entHists s
  unfold stepSignalUpdate
  split_ifs with h
  · exact ⟨rfl, rfl⟩
  · exact ⟨stepKldHists_apply_frame hne, stepEntHists_apply_frame hne⟩

/-- The result entry produced for a sequence depends only on that sequence's
own collaborator outcomes and histories. -/
theorem processVerificationResult_congr {L : Type} {cfg : SignalConfig}
    {rawKld : L → L → Option ℚ} {rawEntropy : L → Option ℚ}
    {st₁ st₂ : RoundState} {sid : String} {d : DraftResult L}
    {v : VerificationResult L} {sl : ℤ}
    (h1 : st₁.signal.kldHists sid = st₂.signal.kldHists sid)
    (h2 : st₁.signal.entHists sid = st₂.signal.entHists sid) :
    (processVerificationResult cfg rawKld rawEntropy st₁ sid d v sl).2 =
      (processVerificationResult cfg rawKld rawEntropy st₂ sid d v sl).2 ∧
    (processVerificationResult cfg rawKld rawEntropy st₁ sid d v sl).1.signal.kldHists sid =
      (processVerificationResult cfg rawKld rawEntropy st₂ sid d v sl).1.signal.kldHists sid ∧
    (processVerificationResult cfg rawKld rawEntropy st₁ sid d v sl).1.signal.entHists sid =
      (processVerificationResult cfg rawKld rawEntropy st₂ sid d v sl).1.signal.entHists sid := by
  have hstep : (stepSignalUpdate cfg rawKld rawEntropy st₁.signal sid d v).2 =
      (stepSignalUpdate cfg rawKld rawEntropy st₂.signal sid d v).2 ∧
      (stepSignalUpdate cfg rawKld rawEntropy st₁.signal sid d v).1.kldHists sid =
      (stepSignalUpdate cfg rawKld rawEntropy st₂.signal sid d v).1.kldHists sid ∧
      (stepSignalUpdate cfg rawKld rawEntropy st₁.signal sid d v).1.entHists sid =
      (stepSignalUpdate cfg rawKld rawEntropy st₂.signal sid d v).1.entHists sid := by
    unfold stepSignalUpdate
    split_ifs with h
    · exact ⟨rfl, h1, h2⟩
    · have hc := @processVerificationStep_congr L cfg rawKld rawEntropy
        st₁.signal st₂.signal sid d.logits v.target_logits v.accepted_tokens h1 h2
      exact ⟨congrArg some hc.1, hc.2.1, hc.2.2⟩
  refine ⟨?_, hstep.2.1, hstep.2.2⟩
  unfold processVerificationResult
  simp only [hstep.1]

/-- A sequence whose draft and verification collaborators both failed gets
the canonical empty round result, independent of any state. -/
theorem processVerificationResult_both_fail {L : Type} {cfg : SignalConfig}
    {rawKld : L → L → Option ℚ} {rawEntropy : L → Option ℚ} {st : RoundState}
    {sid : String} {sl : ℤ} :
    (processVerificationResult cfg rawKld rawEntropy st sid
      (⟨[], [], 1⟩ : DraftResult L) ⟨0, [], "", false⟩ sl).2 =
      emptyRoundResult sl := by
  unfold processVerificationResult stepSignalUpdate emptyRoundResult
  norm_num

theorem headD_eq_getD_zero (sls : List ℤ) : sls.headD 4 = sls.getD 0 4 := by
  cases sls <;> rfl

theorem tail_getD (sls : List ℤ) (i : ℕ) :
    sls.tail.getD i 4 = sls.getD (i + 1) 4 := by
  cases sls <;> simp [List.getD]

/-- Every active sequence gets exactly one per-round result, in order. -/
theorem performRound_keys {L : Type} (cfg : SignalConfig)
    (rawKld : L → L → Option ℚ) (rawEntropy : L → Option ℚ)
    (draftGen : String → ℤ → Except String (DraftResult L))
    (verify : String → DraftResult L → Except String (VerificationResult L)) :
    ∀ (seqIds : List String) (sls : List ℤ) (st : RoundState),
      ((performSpeculationRound cfg rawKld rawEntropy draftGen verify st
        seqIds sls).2).map Prod.fst = seqIds := by
  intro seqIds
  induction seqIds with
  | nil => intro sls st; rfl
  | cons sid rest ih =>
    intro sls st
    simp only [performSpeculationRound, List.map_cons]
    rw [ih]

/-- A sequence whose draft collaborator fails, and whose verification
collaborator also fails on the fallback empty draft, is recorded with the
canonical empty round result. -/
theorem performRound_entry_of_failures {L : Type} (cfg : SignalConfig)
    (rawKld : L → L → Option ℚ) (rawEntropy : L → Option ℚ)
    (draftGen : String → ℤ → Except String (DraftResult L))
    (verify : String → DraftResult L → Except String (VerificationResult L)) :
    ∀ (seqIds : List String) (sls : List ℤ) (st : RoundState) (i : ℕ),
      i < seqIds.length →
      (∃ e, draftGen (seqIds.getD i "") (sls.getD i 4) = .error e) →
      (∃ e, verify (seqIds.getD i "") (⟨[], [], 1⟩ : DraftResult L) = .error e) →
      ((performSpeculationRound cfg rawKld rawEntropy draftGen verify st
        seqIds sls).2).getD i ("", emptyRoundResult 0) =
        (seqIds.getD i "", emptyRoundResult (sls.getD i 4)) := by
  intro seqIds
  induction seqIds with
  | nil =>
    intro sls st i hi
    simp at hi
  | cons sid rest ih =>
    intro sls st i hi hd hv
    match i with
    | 0 =>
      obtain ⟨e, he⟩ := hd
      obtain ⟨e2, he2⟩ := hv
      have hsid : (sid :: rest).getD 0 "" = sid := rfl
      rw [hsid] at he he2
      have hdraft : draftFor draftGen sid (sls.headD 4) =
          (⟨[], [], 1⟩ : DraftResult L) := by
        unfold draftFor
        rw [headD_eq_getD_zero, he]
      have hverif : verifyFor verify sid (draftFor draftGen sid (sls.headD 4)) =
          ⟨0, [], "", false⟩ := by
        rw [hdraft]
        unfold verifyFor
        rw [he2]
      simp only [performSpeculationRound, List.getD_cons_zero, hsid]
      rw [hverif, hdraft, processVerificationResult_both_fail,
        headD_eq_getD_zero]
    | j + 1 =>
      have hj : j < rest.length := by
        simpa using hi
      have hd2 : ∃ e, draftGen (rest.getD j "") (sls.tail.getD j 4) = .error e := by
        rw [tail_getD]
        exact hd
      have hv2 : ∃ e, verify (rest.getD j "") (⟨[], [], 1⟩ : DraftResult L) =
          .error e := hv
      simp only [performSpeculationRound, List.getD_cons_succ]
      rw [ih sls.tail _ j hj hd2 hv2, tail_getD]

/-- Isolation: a sequence's per-round result depends only on its own
collaborator outcomes and its own histories — changing other sequences'
collaborators (e.g. making them fail) cannot alter it. -/
theorem performRound_lookup_congr {L : Type} (cfg : SignalConfig)
    (rawKld : L → L → Option ℚ) (rawEntropy : L → Option ℚ)
    (dg₁ dg₂ : String → ℤ → Except String (DraftResult L))
    (vf₁ vf₂ : String → DraftResult L → Except String (VerificationResult L))
    (sid : String)
    (hdg : ∀ sl, dg₁ sid sl = dg₂ sid sl)
    (hvf : ∀ d, vf₁ sid d = vf₂ sid d) :
    ∀ (seqIds : List String) (sls : List ℤ) (st₁ st₂ : RoundState),
      st₁.signal.kldHists sid = st₂.signal.kldHists sid →
      st₁.signal.entHists sid = st₂.signal.entHists sid →
      ((performSpeculationRound cfg rawKld rawEntropy dg₁ vf₁ st₁
        seqIds sls).2).lookup sid =
      ((performSpeculationRound cfg rawKld rawEntropy dg₂ vf₂ st₂
        seqIds sls).2).lookup sid := by
  intro seqIds
  induction seqIds with
  | nil => intro sls st₁ st₂ h1 h2; rfl
  | cons hd rest ih =>
    intro sls st₁ st₂ h1 h2
    by_cases hh : hd = sid
    · subst hh
      have hdr : draftFor dg₁ hd (sls.headD 4) = draftFor dg₂ hd (sls.headD 4) := by
        unfold draftFor
        rw [hdg]
      have hvr : verifyFor vf₁ hd (draftFor dg₁ hd (sls.headD 4)) =
          verifyFor vf₂ hd (draftFor dg₂ hd (sls.headD 4)) := by
        rw [hdr]
        unfold verifyFor
        rw [hvf]
      have hc := @processVerificationResult_congr L cfg rawKld rawEntropy st₁ st₂
        hd (draftFor dg₂ hd (sls.headD 4))
        (verifyFor vf₂ hd (draftFor dg₂ hd (sls.headD 4))) (sls.headD 4) h1 h2
      simp only [performSpeculationRound, List.lookup]
      rw [hvr, hdr, hc.1]
      simp
    · have hb : (sid == hd) = false := beq_eq_false_iff_ne.mpr (Ne.symm hh)
      simp only [performSpeculationRound, List.lookup, hb]
      have hf₁ := @processVerificationResult_frame L cfg rawKld rawEntropy st₁ hd
        sid (draftFor dg₁ hd (sls.headD 4))
        (verifyFor vf₁ hd (draftFor dg₁ hd (sls.headD 4))) (sls.headD 4)
        (Ne.symm hh)
      have hf₂ := @processVerificationResult_frame L cfg rawKld rawEntropy st₂ hd
        sid (draftFor dg₂ hd (sls.headD 4))
        (verifyFor vf₂ hd (draftFor dg₂ hd (sls.headD 4))) (sls.headD 4)
        (Ne.symm hh)
      exact ih sls.tail _ _ (hf₁.1.trans (h1.trans hf₂.1.symm))
        (hf₁.2.trans (h2.trans hf₂.2.symm))

/-- A result computed from the fallback empty draft has zero tokens
generated, empty signal metrics and no error field, whatever the verification
outcome and the round state. -/
theorem processVerificationResult_draft_fallback {L : Type} {cfg : SignalConfig}
    {rawKld : L → L → Option ℚ} {rawEntropy : L → Option ℚ} {st : RoundState}
    {sid : String} {v : VerificationResult L} {sl : ℤ} :
    (processVerificationResult cfg rawKld rawEntropy st sid
      (⟨[], [], 1⟩ : DraftResult L) v sl).2.tokens_generated = 0 ∧
    (processVerificationResult cfg rawKld rawEntropy st sid
      (⟨[], [], 1⟩ : DraftResult L) v sl).2.signal_metrics = none ∧
    (processVerificationResult cfg rawKld rawEntropy st sid
      (⟨[], [], 1⟩ : DraftResult L) v sl).2.error = none := by
  unfold processVerificationResult stepSignalUpdate
  simp

/-- A result computed from a successful draft and the fallback verification
records the drafted token count with zero accepted tokens, empty signal
metrics, `is_complete = false` and no error field, whatever the round
state. -/
theorem processVerificationResult_verify_fallback {L : Type} {cfg : SignalConfig}
    {rawKld : L → L → Option ℚ} {rawEntropy : L → Option ℚ} {st : RoundState}
    {sid : String} {d : DraftResult L} {sl : ℤ} :
    (processVerificationResult cfg rawKld rawEntropy st sid d
      ⟨0, [], "", false⟩ sl).2 =
      verifyFailRoundResult (d.tokens.length : ℤ) sl := by
  unfold processVerificationResult stepSignalUpdate verifyFailRoundResult
  simp

/-- The i-th entry of a round's result list pairs the i-th sequence id with
the result of processing that sequence's own collaborator outcomes, from some
intermediate round state. -/
theorem performRound_entry_shape {L : Type} (cfg : SignalConfig)
    (rawKld : L → L → Option ℚ) (rawEntropy : L → Option ℚ)
    (draftGen : String → ℤ → Except String (DraftResult L))
    (verify : String → DraftResult L → Except String (VerificationResult L)) :
    ∀ (seqIds : List String) (sls : List ℤ) (st : RoundState) (i : ℕ),
      i < seqIds.length →
      ∃ st2 : RoundState,
        ((performSpeculationRound cfg rawKld rawEntropy draftGen verify st
          seqIds sls).2).getD i ("", emptyRoundResult 0) =
          (seqIds.getD i "",
           (processVerificationResult cfg rawKld rawEntropy st2 (seqIds.getD i "")
             (draftFor draftGen (seqIds.getD i "") (sls.getD i 4))
             (verifyFor verify (seqIds.getD i "")
               (draftFor draftGen (seqIds.getD i "") (sls.getD i 4)))
             (sls.getD i 4)).2) := by
  intro seqIds
  induction seqIds with
  | nil =>
    intro sls st i hi
    simp at hi
  | cons sid rest ih =>
    intro sls st i hi
    match i with
    | 0 =>
      refine ⟨st, ?_⟩
      simp only [performSpeculationRound, List.getD_cons_zero]
      rw [headD_eq_getD_zero]
    | j + 1 =>
      have hj : j < rest.length := by
        simpa using hi
      obtain ⟨st2, hst2⟩ := ih sls.tail
        (processVerificationResult cfg rawKld rawEntropy st sid
          (draftFor draftGen sid (sls.headD 4))
          (verifyFor verify sid (draftFor draftGen sid (sls.headD 4)))
          (sls.headD 4)).1 j hj
      refine ⟨st2, ?_⟩
      simp only [performSpeculationRound, List.getD_cons_succ]
      rw [hst2, tail_getD]

/-- C4 counterexample: two concrete failure scenarios contradict the claim.
With both collaborators failing for the only sequence "A" (speculation length
2), the round records the empty round result whose `error` field is `none` —
the failure is not reported in an error field. And with the draft succeeding
(3 tokens) while only verification fails, the recorded result has
`tokens_generated = 3 ≠ 0` — not a zero-token empty-result round (and again
no error field). -/
theorem round_failure_handling_counterexample :
    ((performSpeculationRound (L := Unit) defaultSignalConfig
        (fun _ _ => some 0) (fun _ => some 0)
        (fun _ _ => .error "draft model failure")
        (fun _ _ => .error "target model failure")
        ⟨initSignalState, fun _ => none⟩ ["A"] [2]).2 =
      [("A", emptyRoundResult 2)] ∧
    (emptyRoundResult 2).error = none) ∧
    ((performSpeculationRound (L := Unit) defaultSignalConfig
        (fun _ _ => some 0) (fun _ => some 0)
        (fun _ _ => .ok ⟨["t1", "t2", "t3"], [(), (), ()], 2⟩)
        (fun _ _ => .error "target model failure")
        ⟨initSignalState, fun _ => none⟩ ["A"] [2]).2 =
      [("A", verifyFailRoundResult 3 2)] ∧
    (verifyFailRoundResult 3 2).tokens_generated = 3 ∧
    (verifyFailRoundResult 3 2).error = none ∧
    (3 : ℤ) ≠ 0) := by
  refine ⟨⟨?_, rfl⟩, ?_, rfl, rfl, by decide⟩
  · simp only [performSpeculationRound, draftFor, verifyFor]
    rw [processVerificationResult_both_fail]
    rfl
  · simp only [performSpeculationRound, draftFor, verifyFor]
    rw [processVerificationResult_verify_fallback]
    rfl

/-- C4 amended: the round-level step is a total function of the collaborator
outcomes (collaborator failures never propagate), and every active sequence
gets exactly one per-round result, in order. A failed draft stage yields a
result with zero tokens generated, empty signal metrics and no error field —
exactly the canonical empty round result when the fallback verification also
fails. A failed verification stage after a successful draft yields zero
accepted tokens, `is_complete = False` and no error field, but the drafted
token count is still recorded as `tokens_generated` — it is not a zero-token
empty-result round. In every case, one sequence's collaborator outcomes
never alter another sequence's per-round result. -/
theorem round_isolates_collaborator_failures {L : Type} (cfg : SignalConfig)
    (rawKld : L → L → Option ℚ) (rawEntropy : L → Option ℚ)
    (dg₁ dg₂ : String → ℤ → Except String (DraftResult L))
    (vf₁ vf₂ : String → DraftResult L → Except String (VerificationResult L))
    (seqIds : List String) (sls : List ℤ) (st st₂ : RoundState)
    (sid : String) (i : ℕ) :
    (((performSpeculationRound cfg rawKld rawEntropy dg₁ vf₁ st
      seqIds sls).2).map Prod.fst = seqIds) ∧
    (i < seqIds.length →
      (∃ e, dg₁ (seqIds.getD i "") (sls.getD i 4) = .error e) →
      (((performSpeculationRound cfg rawKld rawEntropy dg₁ vf₁ st
        seqIds sls).2).getD i ("", emptyRoundResult 0)).2.tokens_generated = 0 ∧
      (((performSpeculationRound cfg rawKld rawEntropy dg₁ vf₁ st
        seqIds sls).2).getD i ("", emptyRoundResult 0)).2.signal_metrics = none ∧
      (((performSpeculationRound cfg rawKld rawEntropy dg₁ vf₁ st
        seqIds sls).2).getD i ("", emptyRoundResult 0)).2.error = none) ∧
    (i < seqIds.length →
      (∃ e, dg₁ (seqIds.getD i "") (sls.getD i 4) = .error e) →
      (∃ e, vf₁ (seqIds.getD i "") (⟨[], [], 1⟩ : DraftResult L) = .error e) →
      ((performSpeculationRound cfg rawKld rawEntropy dg₁ vf₁ st
        seqIds sls).2).getD i ("", emptyRoundResult 0) =
        (seqIds.getD i "", emptyRoundResult (sls.getD i 4))) ∧
    (∀ d : DraftResult L, i < seqIds.length →
      dg₁ (seqIds.getD i "") (sls.getD i 4) = .ok d →
      (∃ e, vf₁ (seqIds.getD i "") d = .error e) →
      ((performSpeculationRound cfg rawKld rawEntropy dg₁ vf₁ st
        seqIds sls).2).getD i ("", emptyRoundResult 0) =
        (seqIds.getD i "",
         verifyFailRoundResult (d.tokens.length : ℤ) (sls.getD i 4))) ∧
    ((∀ sl, dg₁ sid sl = dg₂ sid sl) → (∀ d, vf₁ sid d = vf₂ sid d) →
      st.signal.kldHists sid = st₂.signal.kldHists sid →
      st.signal.entHists sid = st₂.signal.entHists sid →
      ((performSpeculationRound cfg rawKld rawEntropy dg₁ vf₁ st
        seqIds sls).2).lookup sid =
      ((performSpeculationRound cfg rawKld rawEntropy dg₂ vf₂ st₂
        seqIds sls).2).lookup sid) := by
  refine ⟨performRound_keys cfg rawKld rawEntropy dg₁ vf₁ seqIds sls st,
    ?_,
    fun hi hd hv => performRound_entry_of_failures cfg rawKld rawEntropy dg₁ vf₁
      seqIds sls st i hi hd hv,
    ?_,
    fun hdg hvf h1 h2 => performRound_lookup_congr cfg rawKld rawEntropy dg₁ dg₂
      vf₁ vf₂ sid hdg hvf seqIds sls st st₂ h1 h2⟩
  · intro hi hd
    obtain ⟨e, he⟩ := hd
    obtain ⟨st2, hst2⟩ := performRound_entry_shape cfg rawKld rawEntropy dg₁ vf₁
      seqIds sls st i hi
    have hdraft : draftFor dg₁ (seqIds.getD i "") (sls.getD i 4) =
        (⟨[], [], 1⟩ : DraftResult L) := by
      unfold draftFor
      rw [he]
    rw [hst2, hdraft]
    exact processVerificationResult_draft_fallback
  · intro d hi hdok hv
    obtain ⟨e, he⟩ := hv
    obtain ⟨st2, hst2⟩ := performRound_entry_shape cfg rawKld rawEntropy dg₁ vf₁
      seqIds sls st i hi
    have hdraft : draftFor dg₁ (seqIds.getD i "") (sls.getD i 4) = d := by
      unfold draftFor
      rw [hdok]
    have hverif : verifyFor vf₁ (seqIds.getD i "") d =
        (⟨0, [], "", false⟩ : VerificationResult L) := by
      unfold verifyFor
      rw [he]
    rw [hst2, hdraft, hverif, processVerificationResult_verify_fallback]

/-- Witness for the amended C4: with the draft succeeding (3 tokens) and
verification failing for the single sequence "A", the round records the
drafted token count with zero accepted tokens and no error field. -/
theorem round_isolates_collaborator_failures_witness :
    ((performSpeculationRound (L := Unit) defaultSignalConfig
      (fun _ _ => some 0) (fun _ => some 0)
      (fun _ _ => .ok ⟨["t1", "t2", "t3"], [(), (), ()], 2⟩)
      (fun _ _ => .error "verify failure")
      ⟨initSignalState, fun _ => none⟩ ["A"] [2]).2).getD 0
        ("", emptyRoundResult 0) =
      ("A", verifyFailRoundResult 3 2) := by
  have h := (round_isolates_collaborator_failures (L := Unit) defaultSignalConfig
    (fun _ _ => some 0) (fun _ => some 0)
    (fun _ _ => .ok ⟨["t1", "t2", "t3"], [(), (), ()], 2⟩)
    (fun _ _ => .ok ⟨["t1", "t2", "t3"], [(), (), ()], 2⟩)
    (fun _ _ => .error "verify failure") (fun _ _ => .error "verify failure")
    ["A"] [2] ⟨initSignalState, fun _ => none⟩ ⟨initSignalState, fun _ => none⟩
    "A" 0).2.2.2.1 ⟨["t1", "t2", "t3"], [(), (), ()], 2⟩ (by decide) rfl
    ⟨"verify failure", rfl⟩
  simpa using h

end DSDE
